import Mathlib

/-
  Verification of the LambdaALBRouter repository (Python).

  Shallow embedding of:
    - src/LambdaALBRouter/router.py   (ALBRouter: route registration, path
      compilation, call matching, serve, process_lambda_alb_event, Context)
    - src/LambdaALBRouter/exceptions.py (HTTPException hierarchy,
      catch_exception decorator, abort)

  Modelling conventions:
    - Python exceptions are values of PyExc.  catch_exception distinguishes
      exceptions that expose both a code and a description attribute (the
      HTTPException hierarchy, PyExc.http) from all other exceptions
      (PyExc.generic).
    - A compiled route pattern (re.compile of the template after substituting
      each <name> with a named greedy group matching one-or-more characters)
      is modelled as a token list: literal characters and named placeholders.
      A placeholder matches one or more arbitrary characters, greedily with
      backtracking, exactly as the regex engine treats the substituted group;
      in particular it also matches the / character.  The surrounding
      anchors of the compiled pattern force the whole path to be consumed.
      Literal template characters are matched literally (templates containing
      regex metacharacters are outside the scope of the claims), and the
      newline special-casing of the regex dot is irrelevant here.
    - Exact Python exception message texts (regex group redefinition,
      UnboundLocalError, AttributeError, tuple-unpacking ValueError) are
      fixed representative strings; no claim depends on their exact wording.
    - Stdlib body decoding (b64decode + parse_qs and json.loads) is passed
      to process_lambda_alb_event as function parameters, since it is
      external library behaviour, not repository logic.
-/

namespace LambdaALBRouter

/-- Response dictionary shape produced by catch_exception and consumed by the
ALB: statusCode and statusDescription are the attribute values of the caught
exception and are None (modelled by Option.none) when the exception class
leaves them unset, as the base HTTPException does. -/
structure Envelope where
  statusCode : Option Nat
  statusDescription : Option String
  isBase64Encoded : Bool
  headers : List (String × String)
  body : String
  deriving Repr, DecidableEq

/-- A raised Python exception, as far as catch_exception can observe it:
http covers instances of the HTTPException hierarchy (both a code and a
description attribute are present, each possibly None), generic covers every
other exception.  The String field is str(e). -/
inductive PyExc where
  | http (code : Option Nat) (descr : Option String) (msg : String)
  | generic (msg : String)
  deriving Repr, DecidableEq

/-- One element of a compiled route pattern: a literal character of the
template, or a named placeholder produced from a <name> occurrence. -/
inductive Token where
  | lit (c : Char)
  | param (name : String)
  deriving Repr, DecidableEq

/-- Python word character as used by the regex class backslash-w in the
template substitution (ASCII model). -/
def isWordChar (c : Char) : Bool :=
  c.isAlphanum || c == '_'

/-- Longest word-character run at the head of the list, with the rest. -/
def spanWord : List Char → List Char × List Char
  | [] => ([], [])
  | c :: cs =>
    if isWordChar c then
      let p := spanWord cs
      (c :: p.1, p.2)
    else
      ([], c :: cs)

/-- Fuelled scanner for the template: each occurrence of an angle-bracketed
word becomes a placeholder token, every other character a literal token,
mirroring the leftmost scan of re.sub over the template string.  Each step
consumes at least one character, so fuel equal to the length suffices. -/
def tokenizeAux : Nat → List Char → List Token
  | 0, _ => []
  | _, [] => []
  | fuel + 1, c :: cs =>
    if c == '<' then
      match (spanWord cs).2 with
      | d :: rest =>
        if d == '>' && !(spanWord cs).1.isEmpty then
          Token.param (String.mk (spanWord cs).1) :: tokenizeAux fuel rest
        else
          Token.lit c :: tokenizeAux fuel cs
      | [] => Token.lit c :: tokenizeAux fuel cs
    else
      Token.lit c :: tokenizeAux fuel cs

/-- Token list of a route template string. -/
def tokenize (cs : List Char) : List Token :=
  tokenizeAux cs.length cs

/-- Candidate (chunk, remainder) splits for a greedy one-or-more group,
longest chunk first, each chunk nonempty. -/
def splitsDesc (cs : List Char) : List (List Char × List Char) :=
  (List.range cs.length).reverse.map fun j => (cs.take (j + 1), cs.drop (j + 1))

/-- Anchored match of a compiled pattern against a path, returning the
mapping from placeholder names to captured substrings on success.  A
placeholder behaves as the greedy backtracking regex group matching
one-or-more characters: it tries the longest capture first and shortens it
until the rest of the pattern consumes the rest of the path. -/
def matchTokens : List Token → List Char → Option (List (String × String))
  | [], cs => if cs.isEmpty then some [] else none
  | Token.lit c :: ts, cs =>
    match cs with
    | [] => none
    | d :: cs' => if c == d then matchTokens ts cs' else none
  | Token.param n :: ts, cs =>
    (splitsDesc cs).findSome? fun pr =>
      match matchTokens ts pr.2 with
      | some d => some ((n, String.mk pr.1) :: d)
      | none => none

example : tokenize "/x/<p>".data =
    [Token.lit '/', Token.lit 'x', Token.lit '/', Token.param "p"] := by decide

example : matchTokens (tokenize "/x/<p>".data) "/x/abc".data =
    some [("p", "abc")] := by decide

example : matchTokens (tokenize "/x/<p>".data) "/x/abc/def".data =
    some [("p", "abc/def")] := by decide

example : matchTokens (tokenize "/a".data) "/a".data = some [] := by decide

example : matchTokens (tokenize "/a".data) "/ab".data = Option.none := by decide

/-- Request-scoped data holder built by process_lambda_alb_event and passed
to context-aware handlers (router.py Context). -/
structure Context where
  method : String
  path : String
  queryString : List (String × String)
  headers : List (String × String)
  data : List (String × String)

/-- A Python value as far as the router inspects one: a response-envelope
dictionary, a compiled route pattern object, or any other object (a
handler's ordinary return value). -/
inductive PyValue where
  | env (e : Envelope)
  | pat (ts : List Token)
  | raw (tag : String)
  deriving Repr, DecidableEq

/-- A registered exec function: whether its signature declares a context
parameter (the inspect.signature check in serve), and its behaviour on the
extracted path arguments and the optional context — returning a value or
raising an exception. -/
structure Handler where
  takesContext : Bool
  run : List (String × String) → Option Context → Except PyExc PyValue

/-- One entry of ALBRouter.routes: the stored (route_pattern, methods,
exec_function) triple.  The pattern slot holds whatever the catch_exception
wrapped __compile_route_path returned, hence its type PyValue. -/
structure RouteEntry where
  pattern : PyValue
  methods : List String
  handler : Handler

/-- Envelope that catch_exception builds from a caught exception: attribute
values for the HTTPException hierarchy, the fixed 500 Server Error shape
for every other exception (exceptions.py lines 101-127). -/
def excToEnvelope : PyExc → Envelope
  | PyExc.http c d m =>
    ⟨c, d, false, [("Content-Type", "text/plain")], m⟩
  | PyExc.generic m =>
    ⟨some 500, some "Server Error", false, [("Content-Type", "text/plain")], m⟩

/-- The catch_exception decorator: an ordinary return value passes through,
any raised exception becomes a response-envelope dictionary. -/
def catchException (r : Except PyExc PyValue) : PyValue :=
  match r with
  | Except.ok v => v
  | Except.error e => PyValue.env (excToEnvelope e)

/-- HTTPException raised directly: the base class leaves both code and
description as None. -/
def HTTPException (msg : String) : PyExc :=
  PyExc.http Option.none Option.none msg

/-- 400 Bad Request exception instance. -/
def BadRequest (msg : String) : PyExc :=
  PyExc.http (some 400) (some "400 Bad Request") msg

/-- 401 Unauthorized exception instance. -/
def Unauthorized (msg : String) : PyExc :=
  PyExc.http (some 401) (some "401 Unauthorized") msg

/-- 403 Forbidden exception instance. -/
def Forbidden (msg : String) : PyExc :=
  PyExc.http (some 403) (some "403 Forbidden") msg

/-- 404 Not Found exception instance. -/
def NotFound (msg : String) : PyExc :=
  PyExc.http (some 404) (some "404 Not Found") msg

/-- 409 Conflict exception instance. -/
def Conflict (msg : String) : PyExc :=
  PyExc.http (some 409) (some "409 Conflict") msg

/-- 500 Internal Server Error exception instance. -/
def InternalServerError (msg : String) : PyExc :=
  PyExc.http (some 500) (some "500 Internal Server Error") msg

/-- 501 Not Implemented exception instance. -/
def NotImplemented (msg : String) : PyExc :=
  PyExc.http (some 501) (some "501 Not Implemented") msg

/-- 502 Bad Gateway exception instance. -/
def BadGateway (msg : String) : PyExc :=
  PyExc.http (some 502) (some "502 Bad Gateway") msg

/-- The module-level exceptions mapping built by _find_exceptions: every
HTTPException subclass with a non-None code, keyed by that code. -/
def exceptionsMap : List (Nat × (String → PyExc)) :=
  [(400, BadRequest), (401, Unauthorized), (403, Forbidden), (404, NotFound),
   (409, Conflict), (500, InternalServerError), (501, NotImplemented),
   (502, BadGateway)]

/-- The exception that abort(code, message) raises: the mapped typed
exception for a recognized code, the bare HTTPException otherwise. -/
def abort (code : Nat) (msg : String) : PyExc :=
  match (exceptionsMap.lookup code).isSome with
  | true =>
    match exceptionsMap.lookup code with
    | some mk => mk msg
    | Option.none => HTTPException msg
  | false => HTTPException msg

example : abort 403 "x" = PyExc.http (some 403) (some "403 Forbidden") "x" := by decide
example : abort 418 "x" = PyExc.http Option.none Option.none "x" := by decide

/-- Placeholder names of a compiled pattern, in order. -/
def paramNames (ts : List Token) : List String :=
  ts.filterMap fun t =>
    match t with
    | Token.param n => some n
    | _ => Option.none

/-- The re.error that re.compile raises when the substituted template
defines the same group name twice (representative message text). -/
def redefinitionError : PyExc :=
  PyExc.generic "redefinition of group name"

/-- ALBRouter.__compile_route_path before its catch_exception wrapper:
substitute the placeholders, then compile the anchored pattern, which the
regex engine rejects exactly when a group name repeats. -/
def compileRoutePath (routeStr : String) : Except PyExc (List Token) :=
  let ts := tokenize routeStr.data
  if (paramNames ts).Nodup then Except.ok ts else Except.error redefinitionError

/-- __compile_route_path as callers see it: its catch_exception wrapper
turns a compile error into a response-envelope dictionary, which is then
returned in place of a pattern object. -/
def compileRoutePathWrapped (routeStr : String) : PyValue :=
  catchException ((compileRoutePath routeStr).map PyValue.pat)

example : compileRoutePathWrapped "/a/<p>/<p>" =
    PyValue.env (excToEnvelope redefinitionError) := by decide

example : compileRoutePathWrapped "/a/<p>/<q>" =
    PyValue.pat (tokenize "/a/<p>/<q>".data) := by decide

/-- Python str.lower, applied character by character (ASCII model). -/
def lowerStr (s : String) : String :=
  String.mk (s.data.map Char.toLower)

/-- The route_methods argument of ALBRouter.route: Python None, a list of
method strings, or a bare string. -/
inductive MethodsArg where
  | noneArg
  | list (ms : List String)
  | str (s : String)

/-- The UnboundLocalError raised by the string branch of the decorator,
which reads the local variable methods on its own right-hand side before
any assignment to it (representative message text). -/
def unboundLocalMethods : PyExc :=
  PyExc.generic "local variable methods referenced before assignment"

/-- Applying the decorator returned by ALBRouter.route(route_str,
route_methods) to an exec function f (router.py lines 49-66).  The decorator
itself is not wrapped by catch_exception, so an exception raised in its body
propagates to the caller as an Except.error and the routes list is left
unchanged.  On success the new entry is appended to the routes list. -/
def routeDecorator (routes : List RouteEntry) (routeStr : String)
    (routeMethods : MethodsArg) (f : Handler) :
    Except PyExc (List RouteEntry) :=
  let routePattern := compileRoutePathWrapped routeStr
  match routeMethods with
  | MethodsArg.list ms =>
    Except.ok (routes ++ [⟨routePattern, ms.map lowerStr, f⟩])
  | MethodsArg.str s =>
    if s ≠ "" then Except.error unboundLocalMethods
    else Except.ok (routes ++ [⟨routePattern, [], f⟩])
  | MethodsArg.noneArg =>
    Except.ok (routes ++ [⟨routePattern, [], f⟩])

/-- The AttributeError raised when the pattern slot of a stored route is
not a compiled pattern object, so it has no match method (representative
message text). -/
def noMatchAttribute : PyExc :=
  PyExc.generic "AttributeError: object has no attribute match"

/-- Loop body of ALBRouter.__find_call_match before its catch_exception
wrapper (router.py lines 180-195): scan the stored routes in registration
order; on a structural pattern match return the group dictionary and the
exec function when the stored methods list is nonempty and contains the
lowercased call method, or when the stored methods list is empty; otherwise
keep scanning.  Falling off the loop returns Python None. -/
def findCallMatchAux (callPath callMethod : String) :
    List RouteEntry → Except PyExc (Option (List (String × String) × Handler))
  | [] => Except.ok Option.none
  | e :: rest =>
    match e.pattern with
    | PyValue.pat ts =>
      match matchTokens ts callPath.data with
      | some gd =>
        if e.methods ≠ [] ∧ lowerStr callMethod ∈ e.methods then
          Except.ok (some (gd, e.handler))
        else if e.methods = [] then
          Except.ok (some (gd, e.handler))
        else
          findCallMatchAux callPath callMethod rest
      | Option.none => findCallMatchAux callPath callMethod rest
    | _ => Except.error noMatchAttribute

/-- Observable result of the catch_exception wrapped __find_call_match as
serve sees it: a (groupdict, exec_function) pair, Python None, or the
response-envelope dictionary the wrapper built from a raised exception. -/
inductive MatchResult where
  | found (args : List (String × String)) (h : Handler)
  | nothing
  | errEnv (e : Envelope)

/-- ALBRouter.__find_call_match with its catch_exception wrapper. -/
def findCallMatch (routes : List RouteEntry) (callPath callMethod : String) :
    MatchResult :=
  match findCallMatchAux callPath callMethod routes with
  | Except.ok (some (gd, h)) => MatchResult.found gd h
  | Except.ok Option.none => MatchResult.nothing
  | Except.error e => MatchResult.errEnv (excToEnvelope e)

/-- Handler invocation as serve performs it: pass the context keyword
exactly when the exec function's signature declares a context parameter. -/
def runHandler (h : Handler) (args : List (String × String))
    (ctx : Option Context) : Except PyExc PyValue :=
  if h.takesContext then h.run args ctx else h.run args Option.none

/-- The ValueError raised by unpacking the find result into two variables
when __find_call_match returned an error-envelope dictionary instead of a
pair (representative message text). -/
def unpackError : PyExc :=
  PyExc.generic "too many values to unpack (expected 2)"

/-- Body of ALBRouter.serve before its catch_exception wrapper (router.py
lines 70-99): look up a match; on a pair, invoke the exec function; on
Python None, raise NotFound; an error-envelope dictionary from the wrapped
lookup is truthy and fails the two-variable tuple unpacking with a
ValueError. -/
def serveInner (routes : List RouteEntry) (callPath callMethod : String)
    (ctx : Option Context) : Except PyExc PyValue :=
  match findCallMatch routes callPath callMethod with
  | MatchResult.found args h => runHandler h args ctx
  | MatchResult.nothing =>
    Except.error
      (NotFound s!"Route {callPath} via {callMethod} request has not been registered.")
  | MatchResult.errEnv _ => Except.error unpackError

/-- ALBRouter.serve with its catch_exception wrapper: the dispatch entry
point for a (path, method, context) triple.  Its return type records that
it always produces a Python value and never propagates an exception. -/
def serve (routes : List RouteEntry) (callPath callMethod : String)
    (ctx : Option Context) : PyValue :=
  catchException (serveInner routes callPath callMethod ctx)

/-- The AWS Lambda event fields that process_lambda_alb_event reads. -/
structure AlbEvent where
  httpMethod : String
  path : String
  queryStringParameters : List (String × String)
  headers : List (String × String)
  body : Option String
  isBase64Encoded : Bool

/-- Body parsing step of process_lambda_alb_event (router.py lines 127-135):
a missing or empty body yields the empty data mapping; otherwise the body is
decoded by the stdlib pipeline — b64decode + parse_qs + first-value
projection when base64-encoded, json.loads otherwise — passed in here as
the function parameters decodeFormBody and parseJsonBody, either of which
may raise. -/
def parseEventData
    (decodeFormBody parseJsonBody : String → Except PyExc (List (String × String)))
    (event : AlbEvent) : Except PyExc (List (String × String)) :=
  match event.body with
  | some b =>
    if b ≠ "" then
      if event.isBase64Encoded then decodeFormBody b else parseJsonBody b
    else
      Except.ok []
  | Option.none => Except.ok []

/-- The Context object that process_lambda_alb_event builds from the parsed
event fields. -/
def eventContext (event : AlbEvent) (inputData : List (String × String)) :
    Context :=
  ⟨event.httpMethod, event.path, event.queryStringParameters, event.headers,
   inputData⟩

/-- ALBRouter.process_lambda_alb_event with its catch_exception wrapper:
parse the event, build the Context, delegate to serve.  serve itself never
raises, so the wrapper here absorbs exactly the parsing errors. -/
def processLambdaAlbEvent
    (decodeFormBody parseJsonBody : String → Except PyExc (List (String × String)))
    (routes : List RouteEntry) (event : AlbEvent) : PyValue :=
  catchException
    ((parseEventData decodeFormBody parseJsonBody event).map fun inputData =>
      serve routes event.path event.httpMethod (some (eventContext event inputData)))

/-- A handler that returns an ordinary value and never raises. -/
def stubOkHandler : Handler :=
  ⟨false, fun _ _ => Except.ok (PyValue.raw "ok")⟩

/-- A second never-raising handler, distinguishable from stubOkHandler. -/
def stubOkHandler2 : Handler :=
  ⟨false, fun _ _ => Except.ok (PyValue.raw "ok2")⟩

/-- A handler that raises a generic (non-HTTP) exception. -/
def raisingHandler : Handler :=
  ⟨false, fun _ _ => Except.error (PyExc.generic "boom")⟩

/-- A handler that raises the Forbidden failure with message nope. -/
def forbiddenHandler : Handler :=
  ⟨false, fun _ _ => Except.error (Forbidden "nope")⟩

/-- A handler that calls abort with the unrecognized code 418. -/
def abortingHandler : Handler :=
  ⟨false, fun _ _ => Except.error (abort 418 "teapot")⟩

/-- Stdlib body-decoding stand-in that always succeeds with empty data. -/
def okParseStub : String → Except PyExc (List (String × String)) :=
  fun _ => Except.ok []

/-- A concrete ALB event: GET /t with no body. -/
def sampleEvent : AlbEvent :=
  ⟨"GET", "/t", [], [], Option.none, false⟩

/-- C7: for every request whose (path, method) pair is matched by no
registration (the scan falls off the loop and returns None), serve returns
the 404 Not Found envelope raised as NotFound and translated by
catch_exception; the result is a handler-independent constant, so no
handler is invoked. -/
theorem unmatched_route_404
    (routes : List RouteEntry) (callPath callMethod : String)
    (ctx : Option Context)
    (hnone : findCallMatchAux callPath callMethod routes =
      Except.ok Option.none) :
    serve routes callPath callMethod ctx =
      PyValue.env ⟨some 404, some "404 Not Found", false,
        [("Content-Type", "text/plain")],
        s!"Route {callPath} via {callMethod} request has not been registered."⟩ := by
  simp only [serve, serveInner, findCallMatch, hnone]
  rfl

/-- C7 witness: dispatching GET /missing against an empty registration list
returns the 404 envelope. -/
theorem unmatched_route_404_witness :
    serve [] "/missing" "GET" Option.none =
      PyValue.env ⟨some 404, some "404 Not Found", false,
        [("Content-Type", "text/plain")],
        "Route /missing via GET request has not been registered."⟩ :=
  unmatched_route_404 [] "/missing" "GET" Option.none rfl

/-- C8: a recognized typed failure raised by the dispatched handler is
translated by the boundary into the envelope carrying the failure's code as
statusCode, its description as statusDescription, the Content-Type
text/plain header, and the failure message as body. -/
theorem handler_http_failure_translated
    (routes : List RouteEntry) (callPath callMethod : String)
    (ctx : Option Context) (args : List (String × String)) (hdl : Handler)
    (c : Option Nat) (d : Option String) (msg : String)
    (hfind : findCallMatch routes callPath callMethod =
      MatchResult.found args hdl)
    (herr : runHandler hdl args ctx = Except.error (PyExc.http c d msg)) :
    serve routes callPath callMethod ctx =
      PyValue.env ⟨c, d, false, [("Content-Type", "text/plain")], msg⟩ := by
  simp only [serve, serveInner, hfind, herr]
  rfl

/-- C8 witness: a handler raising Forbidden with message nope yields the
envelope with statusCode 403, statusDescription 403 Forbidden, Content-Type
text/plain and body nope. -/
theorem handler_http_failure_translated_witness :
    serve [⟨PyValue.pat (tokenize "/f".data), [], forbiddenHandler⟩]
        "/f" "GET" Option.none =
      PyValue.env ⟨some 403, some "403 Forbidden", false,
        [("Content-Type", "text/plain")], "nope"⟩ :=
  handler_http_failure_translated _ "/f" "GET" Option.none [] forbiddenHandler
    (some 403) (some "403 Forbidden") "nope" rfl rfl

/-- C9: dispatch is a deterministic function of the registration list and
the incoming request: two serve calls with identical path, method and
context values return identical responses (handlers are modelled as pure
functions, which is the no-side-effects hypothesis of the claim). -/
theorem dispatch_deterministic
    (routes : List RouteEntry) (p₁ p₂ m₁ m₂ : String)
    (c₁ c₂ : Option Context)
    (hp : p₁ = p₂) (hm : m₁ = m₂) (hc : c₁ = c₂) :
    serve routes p₁ m₁ c₁ = serve routes p₂ m₂ c₂ := by
  subst hp
  subst hm
  subst hc
  rfl

/-- C9 witness: two identical GET / dispatches agree. -/
theorem dispatch_deterministic_witness :
    serve [] "/" "GET" Option.none = serve [] "/" "GET" Option.none :=
  dispatch_deterministic [] "/" "/" "GET" "GET" Option.none Option.none
    rfl rfl rfl

/-- C10: applying the decorator returned by route with a nonempty bare
string as route_methods raises an uncaught UnboundLocalError — the string
branch reads the local variable methods on its own right-hand side before
it is assigned — so registration crashes: the routes list is unchanged, no
route is registered, and no error envelope is produced. -/
theorem string_methods_crashes_registration
    (routes : List RouteEntry) (routeStr s : String) (f : Handler)
    (hs : s ≠ "") :
    routeDecorator routes routeStr (MethodsArg.str s) f =
      Except.error unboundLocalMethods := by
  simp only [routeDecorator, if_pos hs]

/-- C10 witness: registering with route_methods given as the bare string
GET crashes with the UnboundLocalError. -/
theorem string_methods_crashes_registration_witness :
    ("GET" ≠ "") ∧
    routeDecorator [] "/a" (MethodsArg.str "GET") stubOkHandler =
      Except.error unboundLocalMethods :=
  ⟨by decide,
   string_methods_crashes_registration [] "/a" "GET" stubOkHandler (by decide)⟩

/-- C3: evaluation at the failing input: a handler that calls abort with
the unrecognized code 418 does produce the generic failure with code None,
but serve then returns an envelope whose statusCode and statusDescription
are both None — not the 500 Server Error envelope promised by the
HTTPException docstring — because catch_exception only tests for the
presence of the code attribute, not for a non-None value.  The unrecognized
code 418 itself does not appear in the envelope. -/
theorem abort_unrecognized_code_none_statusCode :
    serve [⟨PyValue.pat (tokenize "/t".data), [], abortingHandler⟩]
        "/t" "GET" Option.none =
      PyValue.env ⟨Option.none, Option.none, false,
        [("Content-Type", "text/plain")], "teapot"⟩ := by
  decide

/-- C1: dispatch is total at the boundary: for any registration list, event
and handler that raises any exception when invoked, both entry points —
serve and process_lambda_alb_event, each wrapped by catch_exception —
return the response-envelope dictionary built from the exception; the
exception never propagates (both functions return plain values by type). -/
theorem dispatch_total_on_handler_error
    (routes : List RouteEntry)
    (decodeFormBody parseJsonBody : String → Except PyExc (List (String × String)))
    (event : AlbEvent) (inputData : List (String × String))
    (args : List (String × String)) (hdl : Handler) (e : PyExc)
    (hparse : parseEventData decodeFormBody parseJsonBody event =
      Except.ok inputData)
    (hfind : findCallMatch routes event.path event.httpMethod =
      MatchResult.found args hdl)
    (herr : runHandler hdl args (some (eventContext event inputData)) =
      Except.error e) :
    serve routes event.path event.httpMethod
        (some (eventContext event inputData)) =
      PyValue.env (excToEnvelope e) ∧
    processLambdaAlbEvent decodeFormBody parseJsonBody routes event =
      PyValue.env (excToEnvelope e) := by
  have hserve : serve routes event.path event.httpMethod
      (some (eventContext event inputData)) = PyValue.env (excToEnvelope e) := by
    simp only [serve, serveInner, hfind, herr]
    rfl
  refine ⟨hserve, ?_⟩
  simp only [processLambdaAlbEvent, hparse, Except.map, catchException]
  exact hserve

/-- C1 witness: a GET /t event dispatched to a handler that raises a
generic exception makes both serve and process_lambda_alb_event return the
500 Server Error envelope carrying the exception text. -/
theorem dispatch_total_on_handler_error_witness :
    serve [⟨PyValue.pat (tokenize "/t".data), [], raisingHandler⟩]
        "/t" "GET" (some (eventContext sampleEvent [])) =
      PyValue.env (excToEnvelope (PyExc.generic "boom")) ∧
    processLambdaAlbEvent okParseStub okParseStub
        [⟨PyValue.pat (tokenize "/t".data), [], raisingHandler⟩] sampleEvent =
      PyValue.env (excToEnvelope (PyExc.generic "boom")) :=
  dispatch_total_on_handler_error _ okParseStub okParseStub sampleEvent []
    [] raisingHandler (PyExc.generic "boom") rfl rfl rfl

/-- C2 counterexample: for the single-placeholder template /x/<p>, the path
/x/abc/def does not fail to match: the compiled pattern is anchored, but
the placeholder group matches one-or-more arbitrary characters including
the slash, so the whole remainder abc/def is captured as p. -/
theorem single_placeholder_subpath_matches :
    matchTokens (tokenize "/x/<p>".data) "/x/abc/def".data =
      some [("p", "abc/def")] ∧
    matchTokens (tokenize "/x/<p>".data) "/x/abc/def".data ≠ Option.none := by
  decide

/-- C2 (amended): for the template /x/<p> and every nonempty suffix s, the
path made of the literal prefix /x/ followed by s matches, binding p to all
of s: in particular /x/abc matches with p = abc, and /x/abc/def also
matches — with p = abc/def — rather than failing, because the greedy
placeholder also consumes slashes; the anchors only force the entire path
to be consumed. -/
theorem single_placeholder_greedy (s : List Char) (hs : s ≠ []) :
    matchTokens (tokenize "/x/<p>".data) ('/' :: 'x' :: '/' :: s) =
      some [("p", String.mk s)] := by
  obtain ⟨m, hm⟩ : ∃ m, s.length = m + 1 := by
    cases s with
    | nil => exact absurd rfl hs
    | cons a t => exact ⟨t.length, rfl⟩
  have htok : tokenize "/x/<p>".data =
      [Token.lit '/', Token.lit 'x', Token.lit '/', Token.param "p"] := by
    decide
  rw [htok]
  simp only [matchTokens]
  have hsplit : splitsDesc s =
      (s, []) ::
        (List.range m).reverse.map (fun j => (s.take (j + 1), s.drop (j + 1))) := by
    simp only [splitsDesc, hm, List.range_succ, List.reverse_append,
      List.reverse_singleton, List.singleton_append, List.map_cons]
    rw [← hm, List.take_length, List.drop_length]
  rw [hsplit, List.findSome?_cons]
  simp [matchTokens]

/-- C2 (amended) witness: instantiating the suffix at abc and at abc/def:
/x/abc matches with p bound to abc, and /x/abc/def matches with p bound to
abc/def. -/
theorem single_placeholder_greedy_witness :
    ("abc".data ≠ ([] : List Char)) ∧
    matchTokens (tokenize "/x/<p>".data) ('/' :: 'x' :: '/' :: "abc".data) =
      some [("p", "abc")] ∧
    matchTokens (tokenize "/x/<p>".data) ('/' :: 'x' :: '/' :: "abc/def".data) =
      some [("p", "abc/def")] :=
  ⟨by decide, single_placeholder_greedy "abc".data (by decide),
   single_placeholder_greedy "abc/def".data (by decide)⟩

/-- C4 counterexample: registering the template /a/<p>/<p>, whose
placeholder name repeats, does not fail: the regex redefinition error is
caught inside the catch_exception wrapper of __compile_route_path, which
returns a 500 Server Error envelope dictionary in place of a pattern, and
the decorator registers the route with that dictionary — no error reaches
the caller of route. -/
theorem duplicate_placeholder_registers :
    routeDecorator [] "/a/<p>/<p>" MethodsArg.noneArg stubOkHandler =
      Except.ok
        [⟨PyValue.env (excToEnvelope redefinitionError), [], stubOkHandler⟩] := by
  rfl

/-- C4 (amended): for every template whose placeholder names repeat,
__compile_route_path raises a regex group-redefinition error, but its own
catch_exception wrapper converts that error into a 500 Server Error
response-envelope dictionary and returns it; the decorator then registers
the route with this dictionary in place of a compiled pattern, so the
registration call succeeds and no error propagates to the caller of
route. -/
theorem duplicate_placeholder_swallowed
    (routes : List RouteEntry) (routeStr : String) (f : Handler)
    (hdup : ¬ (paramNames (tokenize routeStr.data)).Nodup) :
    routeDecorator routes routeStr MethodsArg.noneArg f =
      Except.ok
        (routes ++ [⟨PyValue.env (excToEnvelope redefinitionError), [], f⟩]) := by
  simp only [routeDecorator, compileRoutePathWrapped, compileRoutePath,
    if_neg hdup]
  rfl

/-- C4 (amended) witness: the template /a/<p>/<p> has a repeated
placeholder name and its registration succeeds, storing the error envelope
as the pattern. -/
theorem duplicate_placeholder_swallowed_witness :
    (¬ (paramNames (tokenize "/a/<p>/<p>".data)).Nodup) ∧
    routeDecorator [] "/a/<p>/<p>" MethodsArg.noneArg raisingHandler =
      Except.ok
        [⟨PyValue.env (excToEnvelope redefinitionError), [], raisingHandler⟩] :=
  ⟨by decide,
   duplicate_placeholder_swallowed [] "/a/<p>/<p>" raisingHandler (by decide)⟩

/-- C5: with R1 = (template /a, methods GET) registered before
R2 = (template /a, empty methods), a POST to /a does not stop at R1: R1
matches structurally but its method set excludes post, so the scan
continues, R2 wins, and R2's handler g is the one serve invokes. -/
theorem method_mismatch_scan_continues
    (f g : Handler) (rs₁ rs₂ : List RouteEntry) (ctx : Option Context)
    (h₁ : routeDecorator [] "/a" (MethodsArg.list ["GET"]) f = Except.ok rs₁)
    (h₂ : routeDecorator rs₁ "/a" (MethodsArg.list []) g = Except.ok rs₂) :
    findCallMatch rs₂ "/a" "POST" = MatchResult.found [] g ∧
    serve rs₂ "/a" "POST" ctx = catchException (runHandler g [] ctx) := by
  simp only [routeDecorator, Except.ok.injEq, List.nil_append] at h₁
  subst h₁
  simp only [routeDecorator, Except.ok.injEq] at h₂
  subst h₂
  exact ⟨rfl, rfl⟩

/-- C5 witness: the two registrations instantiated with concrete handlers;
the POST /a dispatch returns the second handler. -/
theorem method_mismatch_scan_continues_witness :
    findCallMatch
        [⟨compileRoutePathWrapped "/a", ["get"], stubOkHandler⟩,
         ⟨compileRoutePathWrapped "/a", [], stubOkHandler2⟩] "/a" "POST" =
      MatchResult.found [] stubOkHandler2 ∧
    serve
        [⟨compileRoutePathWrapped "/a", ["get"], stubOkHandler⟩,
         ⟨compileRoutePathWrapped "/a", [], stubOkHandler2⟩] "/a" "POST"
        Option.none =
      catchException (runHandler stubOkHandler2 [] Option.none) :=
  method_mismatch_scan_continues stubOkHandler stubOkHandler2 _ _
    Option.none rfl rfl

/-- C6: given a structural path match, a registration wins exactly when its
stored methods list is empty (any method accepted) or contains the
lowercased request method (registration lowercases the stored methods, so
this is the case-insensitive membership test); the first such winning
registration in registration order is returned by the scan and its handler
is the one serve invokes. -/
theorem first_winning_registration
    (pre post : List RouteEntry) (e : RouteEntry) (ts : List Token)
    (callPath callMethod : String) (gd : List (String × String))
    (ctx : Option Context)
    (hpat : e.pattern = PyValue.pat ts)
    (hmatch : matchTokens ts callPath.data = some gd)
    (hwin : e.methods = [] ∨ lowerStr callMethod ∈ e.methods)
    (hpre : ∀ e' ∈ pre, ∃ ts', e'.pattern = PyValue.pat ts' ∧
      (matchTokens ts' callPath.data = Option.none ∨
        (e'.methods ≠ [] ∧ lowerStr callMethod ∉ e'.methods))) :
    findCallMatch (pre ++ e :: post) callPath callMethod =
      MatchResult.found gd e.handler ∧
    serve (pre ++ e :: post) callPath callMethod ctx =
      catchException (runHandler e.handler gd ctx) := by
  have haux : findCallMatchAux callPath callMethod (pre ++ e :: post) =
      Except.ok (some (gd, e.handler)) := by
    induction pre with
    | nil =>
      simp only [List.nil_append, findCallMatchAux, hpat, hmatch]
      rcases hwin with hemp | hmem
      · rw [if_neg, if_pos hemp]
        intro hc
        exact hc.1 hemp
      · by_cases hemp : e.methods = []
        · rw [if_neg, if_pos hemp]
          intro hc
          exact hc.1 hemp
        · rw [if_pos ⟨hemp, hmem⟩]
    | cons e' pre' ih =>
      obtain ⟨ts', hp', hskip⟩ := hpre e' (List.mem_cons_self e' pre')
      have ih' := ih fun x hx => hpre x (List.mem_cons_of_mem e' hx)
      rcases hskip with hnomatch | ⟨hne, hnm⟩
      · simp only [List.cons_append, findCallMatchAux, hp', hnomatch]
        exact ih'
      · cases hmt : matchTokens ts' callPath.data with
        | none =>
          simp only [List.cons_append, findCallMatchAux, hp', hmt]
          exact ih'
        | some gd' =>
          simp only [List.cons_append, findCallMatchAux, hp', hmt]
          rw [if_neg, if_neg hne]
          · exact ih'
          · intro hc
            exact hnm hc.2
  constructor
  · simp only [findCallMatch, haux]
  · simp only [serve, serveInner, findCallMatch, haux]

/-- C6 witness: a non-matching registration ahead of a matching GET-only
registration; a GET request wins at the second entry and serve runs its
handler. -/
theorem first_winning_registration_witness :
    findCallMatch
        [⟨PyValue.pat (tokenize "/b".data), [], stubOkHandler⟩,
         ⟨PyValue.pat (tokenize "/a".data), ["get"], stubOkHandler2⟩]
        "/a" "GET" = MatchResult.found [] stubOkHandler2 ∧
    serve
        [⟨PyValue.pat (tokenize "/b".data), [], stubOkHandler⟩,
         ⟨PyValue.pat (tokenize "/a".data), ["get"], stubOkHandler2⟩]
        "/a" "GET" Option.none =
      catchException (runHandler stubOkHandler2 [] Option.none) :=
  first_winning_registration
    [⟨PyValue.pat (tokenize "/b".data), [], stubOkHandler⟩] []
    ⟨PyValue.pat (tokenize "/a".data), ["get"], stubOkHandler2⟩
    (tokenize "/a".data) "/a" "GET" [] Option.none rfl (by decide)
    (Or.inr (by decide))
    (by
      intro e' he'
      rw [List.mem_singleton] at he'
      subst he'
      exact ⟨tokenize "/b".data, rfl, Or.inl (by decide)⟩)

end LambdaALBRouter
